import Mathlib

/-!
Verification of the Stockfish engine controller of the Juris Chess
Sanctuary backend (`src/controllers/stockfishController.js` and its
variants, in particular the variant carrying `getBestMove` and the
module-level `s_analysisResult`).

The controller keeps a module-level engine handle (the `stockfish`
variable, undefined until `initEngine` spawns the engine), a
module-level string `s_analysisResult` holding the most recently
reported best move, and forwards UCI commands to the engine process
through the chess-uci library.  We embed each HTTP handler as a pure
function from an explicit session state to a `Step`: the HTTP response
(if one is produced synchronously), the successor state, and the list
of UCI commands written to the engine.

Asynchronous pieces of the source are made explicit:

* `makeMove` and `analyze` pass their HTTP response to the callback of
  the go() call, so their `Step` carries `resp := none` (deferred); the
  callback itself, which stores `result.bestmove` into
  `s_analysisResult`, is the separate transition `resolveSearch`;
* whether a pending go() is in flight engine-side is recorded in the
  state field `pendingSearch` (set by issuing go, cleared by the
  callback); the controller code never reads it, which is exactly what
  several claims are about;
* whether `stockfish.quit()` rejects is an explicit boolean input of
  `quitEngine` (the try/catch in the source);
* the filesystem checks `doesExist` / `isExecutable` read the
  `fileExists` / `fileExecutable` fields of the state; no controller
  operation mutates them.
-/

namespace StockfishController

/-- The standard starting position in FEN; source constant `FENstartposition`. -/
def FENstartposition : String :=
  "rnbqkbnr/pppppppp/8/8/8/8/PPPPPPPP/RNBQKBNR w KQkq - 0 1"

/-- UCI commands the controller forwards to the engine transport.
`position none ms` is the position() call with the library default
(startpos); `position (some f) ms` is position with an explicit FEN.
`go (some d)` is go with a numeric depth; `go none` is the unbounded
(infinite) search issued by `analyze`. -/
inductive UciCmd where
  | uci
  | isready
  | position (fen : Option String) (moves : List String)
  | go (depth : Option Nat)
  | stop
  | quit
deriving Repr, DecidableEq

/-- An HTTP response of a handler: `success msg` for
res.status(200).json with a status text, `successMove msg mv` when a
bestMove field is included, `error code msg` for the error paths
(the details field of the JSON error bodies is elided). -/
inductive Resp where
  | success (msg : String)
  | successMove (msg : String) (bestMove : String)
  | error (code : Nat) (msg : String)
deriving Repr, DecidableEq

/-- The module-level state of the controller together with the
environment pieces the handlers consult.  `stockfish` is the engine
handle (`none` = the module variable is still undefined or was reset
to null); handles are numbered by `nextHandle`.  `posFen`/`posMoves`
is the position last forwarded to the engine library (`posFen = none`
meaning the library default startpos). -/
structure SessionState where
  stockfish : Option Nat
  s_analysisResult : String
  pendingSearch : Bool
  posFen : Option String
  posMoves : List String
  fileExists : Bool
  fileExecutable : Bool
  nextHandle : Nat
deriving Repr, DecidableEq

/-- One handler invocation: the synchronous HTTP response (`none` when
the response is deferred to the go() callback), the successor state,
and the UCI commands written to the engine. -/
structure Step where
  resp : Option Resp
  st : SessionState
  sent : List UciCmd
deriving Repr, DecidableEq

/-- JavaScript `a || dflt` on an optional string: undefined, null and
the empty string are falsy. -/
def jsStringOr (v : Option String) (dflt : String) : String :=
  match v with
  | none => dflt
  | some s => if s = "" then dflt else s

/-- initEngine (POST /engine/init): runs the doesExist / isExecutable
checks, then spawns the engine only when the `stockfish` variable is
unset (LoggingEngine.start performs the uci handshake, then the
controller issues position() and isready); otherwise it answers with
the already-initialized status and touches nothing. -/
def initEngine (st : SessionState) : Step :=
  if !st.fileExists then
    { resp := some (.error 500 "File does not exist."), st := st, sent := [] }
  else if !st.fileExecutable then
    { resp := some (.error 500 "File is not executable."), st := st, sent := [] }
  else
    match st.stockfish with
    | none =>
        { resp := some (.success "Stockfish engine initialized and ready to use."),
          st := { st with stockfish := some st.nextHandle,
                          nextHandle := st.nextHandle + 1,
                          posFen := none, posMoves := [] },
          sent := [UciCmd.uci, UciCmd.position none [], UciCmd.isready] }
    | some _ =>
        { resp := some (.success "Stockfish engine is already initialized."),
          st := st, sent := [] }

/-- quitEngine (POST /engine/quit): guard on the handle, then
`await stockfish.quit(); stockfish = null;`.  `quitThrows` models the
quit() promise rejecting: the catch block answers 500 and — crucially —
the `stockfish = null` line is never reached. -/
def quitEngine (quitThrows : Bool) (st : SessionState) : Step :=
  match st.stockfish with
  | none =>
      { resp := some (.error 500 "Stockfish engine is not initialized."),
        st := st, sent := [] }
  | some _ =>
      if quitThrows then
        { resp := some (.error 500 "Failed to quit"), st := st, sent := [UciCmd.quit] }
      else
        { resp := some (.success "Stockfish terminated successfully."),
          st := { st with stockfish := none }, sent := [UciCmd.quit] }

/-- stopEngine (POST /engine/stop): guard on the handle, forward stop.
The stop() call itself yields no best move; any bestmove the engine
emits afterwards arrives through the go() callback, i.e. through
`resolveSearch`. -/
def stopEngine (st : SessionState) : Step :=
  match st.stockfish with
  | none =>
      { resp := some (.error 500 "Stockfish engine is not initialized."),
        st := st, sent := [] }
  | some _ =>
      { resp := some (.success "Analysis stopped. Use GET /engine/bestmove to see the results so far!"),
        st := st, sent := [UciCmd.stop] }

/-- makeMove (POST /engine/move/:depth): guard on the handle, default
the depth parameter to 20, reset `s_analysisResult` to the empty
string, then issue go with the numeric depth.  The HTTP response is
produced inside the go() callback (`resolveSearch`), hence
`resp := none` on the success path. -/
def makeMove (depthParam : Option Nat) (st : SessionState) : Step :=
  match st.stockfish with
  | none =>
      { resp := some (.error 500 "Stockfish engine is not initialized."),
        st := st, sent := [] }
  | some _ =>
      let depth := depthParam.getD 20
      { resp := none,
        st := { st with s_analysisResult := "", pendingSearch := true },
        sent := [UciCmd.go (some depth)] }

/-- analyze (POST /engine/analyze): resets `s_analysisResult` first
(the source does so before touching the `stockfish` variable), then
issues the unbounded go.  There is no handle guard in the source: with
`stockfish` undefined the go() access throws a TypeError which the
catch block turns into a 500 (message text elided). -/
def analyze (st : SessionState) : Step :=
  let st1 := { st with s_analysisResult := "" }
  match st.stockfish with
  | none =>
      { resp := some (.error 500 "TypeError"), st := st1, sent := [] }
  | some _ =>
      { resp := none,
        st := { st1 with pendingSearch := true },
        sent := [UciCmd.go none] }

/-- The completion callback handed to go() by `makeMove` and `analyze`:
`s_analysisResult = result.bestmove`; the in-flight search is over.
(The callback also emits the deferred HTTP response and an SSE update,
neither of which changes the controller state.) -/
def resolveSearch (bestmove : String) (st : SessionState) : SessionState :=
  { st with s_analysisResult := bestmove, pendingSearch := false }

/-- getBestMove (GET /engine/bestmove): JavaScript `!s_analysisResult`
on a string is true exactly for the empty string. -/
def getBestMove (st : SessionState) : Resp :=
  if st.s_analysisResult = "" then
    .error 404 "No analysis result available."
  else
    .successMove "Best move found so far: " st.s_analysisResult

/-- Request body of setPosition: both fields optional, as in the JSON
body handling `req.body.fen || FENstartposition` and
`req.body.moves || []`. -/
structure PositionBody where
  fen : Option String
  moves : Option (List String)

/-- setPosition (POST /engine/setposition): guard on the handle,
default the fen (JavaScript falsy ||) and the moves, forward the
position command. -/
def setPosition (body : PositionBody) (st : SessionState) : Step :=
  match st.stockfish with
  | none =>
      { resp := some (.error 500 "Stockfish engine is not initialized."),
        st := st, sent := [] }
  | some _ =>
      let fen := jsStringOr body.fen FENstartposition
      let moves := body.moves.getD []
      { resp := some (.success "Position set successfully"),
        st := { st with posFen := some fen, posMoves := moves },
        sent := [UciCmd.position (some fen) moves] }

/-- JavaScript split on a single space character, on the character
list of the string: yields the (possibly empty) chunks between the
spaces, and the singleton list of the empty string on empty input —
exactly the behavior of moves.split(" ") in the source. -/
def splitSpacesAux : List Char → List Char → List String
  | [], acc => [String.mk acc.reverse]
  | c :: cs, acc =>
      if c = ' ' then String.mk acc.reverse :: splitSpacesAux cs []
      else splitSpacesAux cs (c :: acc)

/-- JavaScript moves.split(" "). -/
def splitSpaces (s : String) : List String :=
  splitSpacesAux s.data []

/-- The FEN/move-list classification performed by setMoves on the
space-split URL parameter: the first component is taken as the FEN
exactly when its length exceeds 10, the remaining components being the
moves; otherwise every component is a move and the FEN defaults to the
starting position. -/
def setMovesParse (movesParam : String) : String × List String :=
  if 10 < ((splitSpaces movesParam).headD "").length then
    ((splitSpaces movesParam).headD "", (splitSpaces movesParam).tail)
  else
    (FENstartposition, splitSpaces movesParam)

/-- The invalid-move flagging of setMoves: moves outside the 4 to 5
character range are collected (and logged in the source). -/
def invalidMovesOf (moveList : List String) : List String :=
  moveList.filter (fun m => decide (m.length < 4) || decide (5 < m.length))

/-- setMoves (POST /engine/setmoves/:moves): parses the decoded URL
parameter, flags invalid-looking moves (log only), and forwards the
full move list regardless.  The source has no explicit handle guard;
with `stockfish` undefined the position() access throws and the catch
block answers 400.  The success response echoes the position result
(payload elided). -/
def setMoves (movesParam : String) (st : SessionState) : Step :=
  let fen := (setMovesParse movesParam).1
  let moveList := (setMovesParse movesParam).2
  match st.stockfish with
  | none =>
      { resp := some (.error 400 "Error processing moves"), st := st, sent := [] }
  | some _ =>
      { resp := some (.success "Received position"),
        st := { st with posFen := some fen, posMoves := moveList },
        sent := [UciCmd.position (some fen) moveList] }

/-- A session state in which the engine is initialized and a go() is
in flight (an earlier search had resolved with e2e4 before the current
one was started). -/
def searchingState : SessionState :=
  { stockfish := some 0, s_analysisResult := "e2e4", pendingSearch := true,
    posFen := some FENstartposition, posMoves := [], fileExists := true,
    fileExecutable := true, nextHandle := 1 }

/-- A session state in which the engine is initialized, no search is
in flight, and the last search resolved with e2e4. -/
def resolvedState : SessionState :=
  { stockfish := some 0, s_analysisResult := "e2e4", pendingSearch := false,
    posFen := some FENstartposition, posMoves := [], fileExists := true,
    fileExecutable := true, nextHandle := 1 }

/-- A fresh process state: engine variable unset, engine binary
present and executable. -/
def freshState : SessionState :=
  { stockfish := none, s_analysisResult := "", pendingSearch := false,
    posFen := none, posMoves := [], fileExists := true,
    fileExecutable := true, nextHandle := 0 }

theorem FENstartposition_ne_empty : FENstartposition ≠ "" := by decide

/-- C1, counterexample: in a state where the engine is initialized and
a search is already in flight, makeMove does not fail with any busy
error — it answers no error at all, issues a second go command, and
overwrites the stored result of the pending search with the empty
string.  This refutes the claim that starting a search while
`Searching` always fails with EngineBusy and never silently replaces
the pending search. -/
theorem makeMove_while_searching_does_not_fail :
    searchingState.pendingSearch = true ∧
    searchingState.stockfish.isSome = true ∧
    searchingState.s_analysisResult = "e2e4" ∧
    (makeMove (some 10) searchingState).resp = none ∧
    (makeMove (some 10) searchingState).sent = [UciCmd.go (some 10)] ∧
    (makeMove (some 10) searchingState).st.s_analysisResult = "" := by
  decide

/-- C1 (amended): the controller has no in-flight-search guard at all.
Whenever the engine handle is set — regardless of whether a search is
already pending — makeMove produces no synchronous error, resets the
stored result to the empty string, leaves a search pending, and issues
a go command with the (defaulted) depth; analyze likewise produces no
synchronous error. -/
theorem makeMove_ignores_pending_search (st : SessionState) (d : Option Nat)
    (h : st.stockfish.isSome = true) :
    (makeMove d st).resp = none ∧
    (makeMove d st).st.s_analysisResult = "" ∧
    (makeMove d st).st.pendingSearch = true ∧
    (makeMove d st).sent = [UciCmd.go (some (d.getD 20))] ∧
    (analyze st).resp = none := by
  obtain ⟨e, he⟩ := Option.isSome_iff_exists.mp h
  simp [makeMove, analyze, he]

theorem makeMove_ignores_pending_search_witness :
    (makeMove (some 12) searchingState).resp = none :=
  (makeMove_ignores_pending_search searchingState (some 12) (by decide)).1

/-- C2: initEngine is idempotent.  If an initEngine call succeeded
with the fresh-initialization response, then a second initEngine call
on the resulting state answers the already-initialized success, leaves
the state (in particular the engine handle and the handle counter)
unchanged, and sends no command — no second process is spawned. -/
theorem initEngine_idempotent (st : SessionState)
    (h : (initEngine st).resp =
      some (.success "Stockfish engine initialized and ready to use.")) :
    initEngine (initEngine st).st =
      { resp := some (.success "Stockfish engine is already initialized."),
        st := (initEngine st).st, sent := [] } ∧
    ((initEngine st).st).stockfish.isSome = true := by
  cases hfe : st.fileExists with
  | false => simp [initEngine, hfe] at h
  | true =>
    cases hfx : st.fileExecutable with
    | false => simp [initEngine, hfe, hfx] at h
    | true =>
      cases hsf : st.stockfish with
      | some e => simp [initEngine, hfe, hfx, hsf] at h
      | none => simp [initEngine, hfe, hfx, hsf]

theorem initEngine_idempotent_witness :
    initEngine (initEngine freshState).st =
      { resp := some (.success "Stockfish engine is already initialized."),
        st := (initEngine freshState).st, sent := [] } :=
  (initEngine_idempotent freshState (by decide)).1

/-- C3, counterexample: with the engine initialized and a search in
flight, setPosition does not fail with EngineBusy — it succeeds and
forwards the position command.  This refutes the claim that
setPosition fails with EngineBusy while Searching. -/
theorem setPosition_while_searching_succeeds :
    searchingState.pendingSearch = true ∧
    (setPosition ⟨some FENstartposition, some ["e2e4", "e7e5"]⟩ searchingState).resp =
      some (.success "Position set successfully") ∧
    (setPosition ⟨some FENstartposition, some ["e2e4", "e7e5"]⟩ searchingState).sent =
      [UciCmd.position (some FENstartposition) ["e2e4", "e7e5"]] := by
  decide

/-- C3 (amended): setPosition fails with the not-initialized error
exactly when the engine handle is unset (both the never-initialized
and the after-quit case), and otherwise — whether or not a search is
in flight — updates the stored position with the defaulted fen and
moves, forwards the position command, and reports success. -/
theorem setPosition_guard (st : SessionState) (body : PositionBody) :
    (st.stockfish = none →
      setPosition body st =
        { resp := some (.error 500 "Stockfish engine is not initialized."),
          st := st, sent := [] }) ∧
    (∀ e, st.stockfish = some e →
      setPosition body st =
        { resp := some (.success "Position set successfully"),
          st := { st with posFen := some (jsStringOr body.fen FENstartposition),
                          posMoves := body.moves.getD [] },
          sent := [UciCmd.position (some (jsStringOr body.fen FENstartposition))
                    (body.moves.getD [])] }) := by
  constructor
  · intro h
    simp [setPosition, h]
  · intro e h
    simp [setPosition, h]

theorem setPosition_guard_witness :
    setPosition ⟨none, none⟩ searchingState =
      { resp := some (.success "Position set successfully"),
        st := { searchingState with posFen := some FENstartposition, posMoves := [] },
        sent := [UciCmd.position (some FENstartposition) []] } :=
  (setPosition_guard searchingState ⟨none, none⟩).2 0 rfl

/-- C4, counterexample: after a search resolved with e2e4, a
setPosition call does not clear the stored result, and neither does a
repeat initEngine: getBestMove still answers the old move instead of
failing with the no-result error, although no search has resolved
since the last setPosition/initialize.  This refutes the exactness
part of the claim. -/
theorem getBestMove_survives_setPosition :
    (setPosition ⟨none, none⟩ resolvedState).resp =
      some (.success "Position set successfully") ∧
    getBestMove (setPosition ⟨none, none⟩ resolvedState).st =
      .successMove "Best move found so far: " "e2e4" ∧
    getBestMove (initEngine resolvedState).st =
      .successMove "Best move found so far: " "e2e4" := by
  decide

/-- C4 (amended): getBestMove fails with the no-result error exactly
when the stored result is the empty string; otherwise it returns the
most recently resolved best move.  The stored result survives
setPosition, initEngine and stopEngine (it is reset only when a new
search is started), and resolveSearch records the reported move — so
after go-then-stop the caller distinguishes a reported move (200 with
the move) from no move ever reported (404). -/
theorem getBestMove_spec (st : SessionState) (body : PositionBody) (mv : String) :
    (getBestMove st = .error 404 "No analysis result available." ↔
      st.s_analysisResult = "") ∧
    (st.s_analysisResult ≠ "" →
      getBestMove st = .successMove "Best move found so far: " st.s_analysisResult) ∧
    (setPosition body st).st.s_analysisResult = st.s_analysisResult ∧
    (initEngine st).st.s_analysisResult = st.s_analysisResult ∧
    (stopEngine st).st.s_analysisResult = st.s_analysisResult ∧
    (resolveSearch mv st).s_analysisResult = mv := by
  refine ⟨?_, ?_, ?_, ?_, ?_, rfl⟩
  · by_cases h : st.s_analysisResult = "" <;> simp [getBestMove, h]
  · intro h
    simp [getBestMove, h]
  · cases hsf : st.stockfish <;> simp [setPosition, hsf]
  · cases hfe : st.fileExists <;> cases hfx : st.fileExecutable <;>
      cases hsf : st.stockfish <;> simp [initEngine, hfe, hfx, hsf]
  · cases hsf : st.stockfish <;> simp [stopEngine, hsf]

theorem getBestMove_spec_witness :
    getBestMove resolvedState = .successMove "Best move found so far: " "e2e4" :=
  (getBestMove_spec resolvedState ⟨none, none⟩ "e2e4").2.1 (by decide)

/-- C5: for every initialized session (with the engine binary still
present and executable), a successful quitEngine answers the
termination success and nulls the handle, and a following initEngine
performs a fresh spawn: it answers the fresh-initialization response —
not the already-initialized one — assigns a new handle, and performs
the uci handshake, initial position and isready round trip. -/
theorem quit_then_init (st : SessionState) (e : Nat)
    (h : st.stockfish = some e) (hfe : st.fileExists = true)
    (hfx : st.fileExecutable = true) :
    (quitEngine false st).resp = some (.success "Stockfish terminated successfully.") ∧
    (quitEngine false st).st.stockfish = none ∧
    (initEngine (quitEngine false st).st).resp =
      some (.success "Stockfish engine initialized and ready to use.") ∧
    (initEngine (quitEngine false st).st).st.stockfish = some st.nextHandle ∧
    (initEngine (quitEngine false st).st).sent =
      [UciCmd.uci, UciCmd.position none [], UciCmd.isready] := by
  simp [quitEngine, initEngine, h, hfe, hfx]

theorem quit_then_init_witness :
    (initEngine (quitEngine false resolvedState).st).resp =
      some (.success "Stockfish engine initialized and ready to use.") :=
  (quit_then_init resolvedState 0 rfl rfl rfl).2.2.1

/-- C6: omitting the fen field of a setPosition request is equivalent
to supplying the standard starting FEN explicitly — the two calls
produce the identical step: same response, same stored position, same
forwarded position command with the same moves. -/
theorem setPosition_default_fen (st : SessionState) (moves : Option (List String)) :
    setPosition ⟨none, moves⟩ st = setPosition ⟨some FENstartposition, moves⟩ st := by
  cases hsf : st.stockfish <;>
    simp [setPosition, hsf, jsStringOr, if_neg FENstartposition_ne_empty]

/-- C7: setMoves is validate-but-forward.  A move of the parsed move
list is flagged in the invalid list exactly when its length lies
outside 4 to 5; yet whenever the engine handle is set, the request
succeeds and the full parsed move list — flagged moves included — is
forwarded unchanged in the position command. -/
theorem setMoves_validate_but_forward (st : SessionState) (p : String) (e : Nat)
    (h : st.stockfish = some e) :
    (∀ m ∈ (setMovesParse p).2,
      (m ∈ invalidMovesOf (setMovesParse p).2 ↔ m.length < 4 ∨ 5 < m.length)) ∧
    (setMoves p st).resp = some (.success "Received position") ∧
    (setMoves p st).sent =
      [UciCmd.position (some (setMovesParse p).1) (setMovesParse p).2] := by
  refine ⟨?_, ?_, ?_⟩
  · intro m hm
    simp [invalidMovesOf, List.mem_filter, hm]
  · simp [setMoves, h]
  · simp [setMoves, h]

theorem setMoves_validate_but_forward_witness :
    (setMoves "e2e4 e7 e7e8q" searchingState).sent =
      [UciCmd.position (some (setMovesParse "e2e4 e7 e7e8q").1)
        (setMovesParse "e2e4 e7 e7e8q").2] :=
  (setMoves_validate_but_forward searchingState "e2e4 e7 e7e8q" 0 rfl).2.2

/-- C8: quitEngine is atomic on error.  For an initialized session, if
the quit command rejects, the handler answers the failure response and
the whole state — in particular the still-set engine handle — is
unchanged; the handle is cleared exactly on the successful path. -/
theorem quitEngine_atomic (st : SessionState) (e : Nat)
    (h : st.stockfish = some e) :
    quitEngine true st =
      { resp := some (.error 500 "Failed to quit"), st := st, sent := [UciCmd.quit] } ∧
    (quitEngine false st).st.stockfish = none := by
  simp [quitEngine, h]

theorem quitEngine_atomic_witness :
    quitEngine true resolvedState =
      { resp := some (.error 500 "Failed to quit"), st := resolvedState,
        sent := [UciCmd.quit] } :=
  (quitEngine_atomic resolvedState 0 rfl).1

/-- C9: the FEN/move classification of setMoves is a pure length
heuristic on the space-split input.  When the first component is
longer than 10 characters it becomes the FEN of the forwarded position
command and the remaining components the move list; otherwise all
components are moves and the FEN defaults to the standard starting
position. -/
theorem setMoves_fen_heuristic (p : String) (st : SessionState) (e : Nat)
    (h : st.stockfish = some e) :
    (10 < ((splitSpaces p).headD "").length →
      (setMoves p st).sent =
        [UciCmd.position (some ((splitSpaces p).headD "")) (splitSpaces p).tail]) ∧
    (((splitSpaces p).headD "").length ≤ 10 →
      (setMoves p st).sent =
        [UciCmd.position (some FENstartposition) (splitSpaces p)]) := by
  have hp : ∀ q : String × List String, setMovesParse p = q →
      (setMoves p st).sent = [UciCmd.position (some q.1) q.2] := by
    intro q hq
    simp [setMoves, hq, h]
  constructor
  · intro hl
    exact hp _ (by unfold setMovesParse; rw [if_pos hl])
  · intro hl
    exact hp _ (by unfold setMovesParse; rw [if_neg (Nat.not_lt.mpr hl)])

theorem setMoves_fen_heuristic_witness :
    (setMoves "rnbqkbnr/pppppppp e2e4" searchingState).sent =
      [UciCmd.position (some ((splitSpaces "rnbqkbnr/pppppppp e2e4").headD ""))
        (splitSpaces "rnbqkbnr/pppppppp e2e4").tail] :=
  (setMoves_fen_heuristic "rnbqkbnr/pppppppp e2e4" searchingState 0 rfl).1 (by decide)

/-- C10: starting a new search clears the stored result before the go
command.  After an earlier search resolved with some nonempty best
move (so that getBestMove would return it), issuing makeMove or
analyze resets the stored result, and a getBestMove call made before
the new search resolves fails with the no-result error. -/
theorem new_search_clears_result (st : SessionState) (e : Nat) (mv : String)
    (d : Option Nat) (h : st.stockfish = some e) (hmv : mv ≠ "") :
    getBestMove (resolveSearch mv st) = .successMove "Best move found so far: " mv ∧
    getBestMove (makeMove d (resolveSearch mv st)).st =
      .error 404 "No analysis result available." ∧
    getBestMove (analyze (resolveSearch mv st)).st =
      .error 404 "No analysis result available." := by
  simp [getBestMove, resolveSearch, makeMove, analyze, h, hmv]

theorem new_search_clears_result_witness :
    getBestMove (makeMove (some 10) (resolveSearch "g1f3" resolvedState)).st =
      .error 404 "No analysis result available." :=
  (new_search_clears_result resolvedState 0 "g1f3" (some 10) rfl (by decide)).2.1

end StockfishController
